import Mathlib

/-
Verification development for the financial-advisor-agent repository.

The repository is Python; we use a shallow embedding.  JSON-like Python
values are modelled by the inductive type Json (numbers as rationals),
Python exceptions by the error side of Except String, and external
collaborators (the Gemini LLM, the network, the standard library's
statistics.stdev and datetime.fromisoformat) by oracle parameters that the
theorems quantify over.  Every definition is translated from the source
files, statement by statement, in the source's evaluation order, so that a
Python exception raised at some point corresponds exactly to an
Except.error escaping at the same point.
-/

namespace FinAdvisor

/-- JSON-like Python values (dict / list / str / number / bool / None).
Numbers are modelled as rationals. -/
inductive Json where
  | null : Json
  | bool : Bool → Json
  | num : ℚ → Json
  | str : String → Json
  | arr : List Json → Json
  | obj : List (String × Json) → Json
deriving Repr

/-- First-match association lookup, the embedding of reading a key of a
Python dict (Python dicts cannot hold duplicate keys; we read the first). -/
def assocLookup (kvs : List (String × Json)) (k : String) : Option Json :=
  match kvs with
  | [] => none
  | (k2, v) :: rest => if k2 = k then some v else assocLookup rest k

/-- Key membership in a dict, the embedding of the Python test k in d. -/
def assocHasKey (kvs : List (String × Json)) (k : String) : Bool :=
  (assocLookup kvs k).isSome

/-- Lookup of a key on an arbitrary Json value; none when the value is not
an object or lacks the key.  Used by the theorems to inspect results. -/
def Json.lookup : Json → String → Option Json
  | .obj kvs, k => assocLookup kvs k
  | _, _ => none

/-- The key list of an object, in construction order. -/
def Json.keys : Json → List String
  | .obj kvs => kvs.map Prod.fst
  | _ => []

/-- Python d.get(k, default): succeeds on a dict, raises AttributeError on
every other value.  The error text stands for str(e) of the exception. -/
def pyDictGet : Json → String → Json → Except String Json
  | .obj kvs, k, dflt => .ok ((assocLookup kvs k).getD dflt)
  | _, _, _ => .error "AttributeError: object has no attribute get"

/-- Python d.items(): the key/value pairs of a dict, raising
AttributeError on any non-dict value. -/
def pyItems : Json → Except String (List (String × Json))
  | .obj kvs => .ok kvs
  | _ => .error "AttributeError: object has no attribute items"

/-- Python d.values(), raising AttributeError on any non-dict value. -/
def pyValues : Json → Except String (List Json)
  | .obj kvs => .ok (kvs.map Prod.snd)
  | _ => .error "AttributeError: object has no attribute values"

/-- Python list(d.keys()), raising AttributeError on any non-dict value. -/
def pyKeys : Json → Except String (List String)
  | .obj kvs => .ok (kvs.map Prod.fst)
  | _ => .error "AttributeError: object has no attribute keys"

/-- Python truthiness: None, False, 0, empty string, empty list and empty
dict are falsy; everything else is truthy. -/
def truthy : Json → Bool
  | .null => false
  | .bool b => b
  | .num q => q ≠ 0
  | .str s => s ≠ ""
  | .arr l => !l.isEmpty
  | .obj kvs => !kvs.isEmpty

/-- Numeric coercion used by Python arithmetic and ordering: numbers are
themselves, booleans coerce to 0 or 1, everything else raises TypeError. -/
def asNum : Json → Except String ℚ
  | .num q => .ok q
  | .bool b => .ok (if b then 1 else 0)
  | _ => .error "TypeError: unsupported operand type"

/-- Python comparison v > q against a number (TypeError on non-numbers). -/
def pyGt (v : Json) (q : ℚ) : Except String Bool := do
  let a ← asNum v
  pure (a > q)

/-- Python comparison v >= q against a number. -/
def pyGe (v : Json) (q : ℚ) : Except String Bool := do
  let a ← asNum v
  pure (a ≥ q)

/-- Python iteration, for x in v: lists yield elements, strings yield
one-character strings, dicts yield their keys; numbers, booleans and None
raise TypeError. -/
def pyIter : Json → Except String (List Json)
  | .arr l => .ok l
  | .str s => .ok (s.toList.map fun c => .str (String.mk [c]))
  | .obj kvs => .ok (kvs.map fun kv => .str kv.fst)
  | _ => .error "TypeError: object is not iterable"

/-- Python equality on values: True equals 1 and False equals 0; values of
unrelated types are unequal.  Every equality test in the embedded code
compares a value against a scalar literal (a string or a number), so the
structured cases, where both sides would be lists or dicts, are never
reached and are collapsed to false. -/
def pyEqb : Json → Json → Bool
  | .null, .null => true
  | .str a, .str b => a = b
  | .num a, .num b => a = b
  | .bool a, .num b => (if a then (1 : ℚ) else 0) = b
  | .num a, .bool b => a = (if b then (1 : ℚ) else 0)
  | .bool a, .bool b => a = b
  | _, _ => false

/-- Textual rendering of a value inside an f-string (Python str()).
Structured values are abbreviated: wherever the embedded code interpolates
a value it is either a scalar, or the surrounding text is consumed only by
the LLM oracle, which the theorems quantify over. -/
def pyStr : Json → String
  | .null => "None"
  | .bool b => if b then "True" else "False"
  | .num q => toString q
  | .str s => s
  | .arr _ => "<list>"
  | .obj _ => "<dict>"

/-- Rendering of a list of strings inside an f-string (only used in the
planner prompt, which is consumed by the LLM oracle). -/
def reprStrList (l : List String) : String :=
  "[" ++ String.intercalate ", " l ++ "]"

/-- Substring test, the embedding of the Python test needle in haystack
for strings. -/
def strContains (hay needle : String) : Bool :=
  (List.range (hay.length + 1)).any fun i => needle.isPrefixOf (String.mk (hay.toList.drop i))

/-- Kind of exception raised by an httpx request. -/
inductive ExcKind where
  | timeout : ExcKind
  | transport : ExcKind
deriving Repr, DecidableEq

/-- Outcome of one HTTP POST, as seen by the caller. -/
inductive HttpResult where
  | exc (kind : ExcKind) (msg : String)
  | resp (status : ℕ) (body : Except String Json)
deriving Repr

/-- The static agent registry self.agents of FinancialCoordinator. -/
def coordinatorAgents : List (String × String) :=
  [("budget", "http://budget-agent.financial-advisor.svc.cluster.local:8080/analyze"),
   ("investment", "http://investment-agent.financial-advisor.svc.cluster.local:8080/recommend"),
   ("security", "http://security-agent.financial-advisor.svc.cluster.local:8080/assess")]

/-- String-keyed association lookup for the registry. -/
def regLookup (reg : List (String × String)) (k : String) : Option String :=
  match reg with
  | [] => none
  | (k2, v) :: rest => if k2 = k then some v else regLookup rest k

/-- The AgentResponse dataclass.  The confidence and recommendations
fields hold whatever result.get returned, as in Python, where the float
and list annotations are not enforced. -/
structure AgentResponse where
  agent_type : String
  result : Json
  confidence : Json
  recommendations : Json
deriving Repr

/-- CoordinationPlan: the two fields of the planner output that
coordinate_agents reads (plan["required_agents"], a list of agent names,
and plan["context_for_agents"]). -/
structure CoordinationPlan where
  required_agents : List String
  context_for_agents : Json

/-- The request payload built by FinancialCoordinator.call_agent: the
dict literal with user_data, context, timestamp and requesting_agent. -/
def call_agent_payload (user_data context : Json) (timestamp : String) : Json :=
  .obj [("user_data", user_data),
        ("context", context),
        ("timestamp", .str timestamp),
        ("requesting_agent", .str "coordinator")]

/-- The error dict returned by call_agent's except branch. -/
def callAgentErrDict (agent_name msg : String) : Json :=
  .obj [("error", .str ("Agent " ++ agent_name ++ " failed: " ++ msg)),
        ("confidence", .num 0),
        ("recommendations", .arr [])]

/-- FinancialCoordinator.call_agent.  The registry subscript
self.agents[agent_name] sits before the try block, so an unknown name is a
KeyError escaping the coroutine; inside the try block the HTTP status is
never inspected: any response whose body parses is returned as-is, and
every exception (timeout or not) collapses to the same error dict. -/
def call_agent (net : String → Json → HttpResult) (agent_name : String)
    (user_data context : Json) (timestamp : String) : Except String Json :=
  match regLookup coordinatorAgents agent_name with
  | none => .error ("KeyError: " ++ agent_name)
  | some agent_url =>
      let payload := call_agent_payload user_data context timestamp
      .ok (match net agent_url payload with
        | .resp _ (.ok j) => j
        | .resp _ (.error e) => callAgentErrDict agent_name e
        | .exc _ e => callAgentErrDict agent_name e)

/-- The result-processing loop of coordinate_agents: the i-th gathered
result is paired with plan.required_agents[i]; results that are exceptions
are skipped (only an unreachable KeyError can be one, since call_agent
catches everything else); result.get raises on a non-dict result and that
exception escapes coordinate_agents. -/
def processResults : List (Except String Json) → List String →
    Except String (List AgentResponse)
  | [], _ => .ok []
  | _ :: _, [] => .error "IndexError: list index out of range"
  | r :: rs, n :: ns =>
      match r with
      | .error _ => processResults rs ns
      | .ok result => do
          let conf ← pyDictGet result "confidence" (.num (4 / 5))
          let recs ← pyDictGet result "recommendations" (.arr [])
          let rest ← processResults rs ns
          pure ({ agent_type := n, result := result,
                  confidence := conf, recommendations := recs } :: rest)

/-- FinancialCoordinator.coordinate_agents: dispatch tasks only for plan
names found in the registry, gather, then run the processing loop, whose
index runs over the unfiltered plan["required_agents"] list. -/
def coordinate_agents (net : String → Json → HttpResult)
    (plan : CoordinationPlan) (user_data : Json) (timestamp : String) :
    Except String (List AgentResponse) :=
  let tasks := plan.required_agents.filter
    (fun n => (regLookup coordinatorAgents n).isSome)
  let agent_results := tasks.map
    (fun n => call_agent net n user_data plan.context_for_agents timestamp)
  processResults agent_results plan.required_agents

/-- The request envelopes one coordination round sends over the network:
one call_agent payload per plan target that resolves in the registry. -/
def coordinate_envelopes (plan : CoordinationPlan) (user_data : Json)
    (timestamp : String) : List Json :=
  (plan.required_agents.filter
    (fun n => (regLookup coordinatorAgents n).isSome)).map
    (fun _ => call_agent_payload user_data plan.context_for_agents timestamp)

mutual

/-- Serialization of a value, the embedding of json.dumps.  Quote escaping
and indentation are not reproduced: the serialized text is only ever part
of a prompt consumed by the LLM oracle. -/
def dumps : Json → String
  | .null => "null"
  | .bool b => if b then "true" else "false"
  | .num q => toString q
  | .str s => "\"" ++ s ++ "\""
  | .arr l => "[" ++ dumpsList l ++ "]"
  | .obj kvs => "\x7b" ++ dumpsObj kvs ++ "\x7d"

/-- Serialization of the elements of a list. -/
def dumpsList : List Json → String
  | [] => ""
  | [x] => dumps x
  | x :: rest => dumps x ++ ", " ++ dumpsList rest

/-- Serialization of the entries of a dict. -/
def dumpsObj : List (String × Json) → String
  | [] => ""
  | [(k, v)] => "\"" ++ k ++ "\": " ++ dumps v
  | (k, v) :: rest => "\"" ++ k ++ "\": " ++ dumps v ++ ", " ++ dumpsObj rest

end

/-- The fixed fallback plan of analyze_user_query's except branch. -/
def fallback_plan (user_data : Json) : Json :=
  .obj [("intent", .str "general_financial_advice"),
        ("required_agents", .arr [.str "budget", .str "investment", .str "security"]),
        ("agent_priorities", .obj [("budget", .num 1), ("investment", .num 2), ("security", .num 3)]),
        ("context_for_agents", .obj [("all", user_data)]),
        ("expected_outcome", .str "comprehensive_financial_plan")]

/-- The user-context reads interpolated into the planner prompt, evaluated
before the try block of analyze_user_query, in source order:
user_data.get("balance", ...).get("amount", 0), then
user_data.get("spending_analysis", ...).get("average_monthly", 0), then
list(user_data.get("spending_analysis", ...).get("categories", ...).keys())[:3].
Each .get raises AttributeError when its receiver is not a dict. -/
def planPromptContext (user_data : Json) : Except String (Json × Json × List String) := do
  let bal ← pyDictGet user_data "balance" (.obj [])
  let balAmt ← pyDictGet bal "amount" (.num 0)
  let sa1 ← pyDictGet user_data "spending_analysis" (.obj [])
  let avg ← pyDictGet sa1 "average_monthly" (.num 0)
  let sa2 ← pyDictGet user_data "spending_analysis" (.obj [])
  let cats ← pyDictGet sa2 "categories" (.obj [])
  let ks ← pyKeys cats
  pure (balAmt, avg, ks.take 3)

/-- The planner prompt (literal instruction text abbreviated; the prompt
is consumed only by the LLM oracle). -/
def planPrompt (query : String) (balAmt avg : Json) (cats : List String) : String :=
  "Analyze this financial query and determine what agents should be involved: " ++
  "User Query: \"" ++ query ++ "\" User Financial Context: " ++
  "Current Balance: $" ++ pyStr balAmt ++
  " Monthly Spending: $" ++ pyStr avg ++
  " Top Spending Categories: " ++ reprStrList cats ++
  " Return a JSON response with intent, required_agents, agent_priorities, " ++
  "context_for_agents, expected_outcome."

/-- FinancialCoordinator.analyze_user_query.  The prompt construction sits
before the try block, so a .get on a non-dict context field raises out of
the method; inside the try block any LLM or JSON-parse failure falls back
to the fixed plan. -/
def analyze_user_query (llm : String → Except String Json) (query : String)
    (user_data : Json) : Except String Json := do
  let (balAmt, avg, cats) ← planPromptContext user_data
  match llm (planPrompt query balAmt avg cats) with
  | .ok j => pure j
  | .error _ => pure (fallback_plan user_data)

/-- The agent_insights dict built by synthesize_response (a Python dict
keyed by agent_type; a duplicate agent_type would overwrite, but the value
is only interpolated into the synthesis prompt for the LLM oracle). -/
def agent_insights (agent_responses : List AgentResponse) : Json :=
  .obj (agent_responses.map fun r =>
    (r.agent_type, Json.obj [("recommendations", r.recommendations),
                             ("confidence", r.confidence),
                             ("key_data", r.result)]))

/-- The synthesis prompt (literal instruction text abbreviated). -/
def synthPrompt (query : String) (insights : Json) : String :=
  "Create a comprehensive financial advice response based on these agent " ++
  "analyses: Original User Query: \"" ++ query ++ "\" Agent Insights: " ++
  dumps insights ++
  " Format as JSON with summary, detailed_plan, key_insights, next_actions, monitoring."

/-- The detailed_plan list comprehension of the synthesis fallback:
iterating resp.recommendations raises TypeError when that field is not
iterable (it holds whatever result.get returned). -/
def flatRecs : List AgentResponse → Except String (List Json)
  | [] => .ok []
  | r :: rs => do
      let items ← pyIter r.recommendations
      let rest ← flatRecs rs
      pure (items ++ rest)

/-- The template dict returned by synthesize_response's except branch. -/
def synth_fallback (agent_responses : List AgentResponse) : Except String Json := do
  let plans ← flatRecs agent_responses
  pure (.obj [("summary", .str "I\x27ve analyzed your financial situation with our specialized agents."),
        ("detailed_plan", .arr plans),
        ("key_insights", .arr (agent_responses.map fun r =>
          Json.str (r.agent_type ++ " agent provided analysis"))),
        ("next_actions", .arr [.str "Review the recommendations",
                               .str "Consider implementing suggested changes"]),
        ("monitoring", .str "Track your progress monthly")])

/-- FinancialCoordinator.synthesize_response: on LLM success the parsed
LLM output is returned verbatim; on LLM failure the deterministic template
is built (and its list comprehension can itself raise). -/
def synthesize_response (llm : String → Except String Json) (query : String)
    (agent_responses : List AgentResponse) : Except String Json :=
  let insights := agent_insights agent_responses
  match llm (synthPrompt query insights) with
  | .ok j => .ok j
  | .error _ => synth_fallback agent_responses

/-
Specialist analysis tools.  Each Python tool takes a JSON string, parses
it with json.loads inside a try block that also covers the whole body, and
on any exception returns json.dumps of a dict with a single error key.
The string input is embedded as Option Json: none is an input that
json.loads rejects, some d is an input parsing to d.  Numeric text
formatting inside f-strings (.2f and friends) is abstracted by fmtQ.
-/

/-- Abstraction of numeric f-string formatting (the formatted text only
appears inside human-readable output strings). -/
def fmtQ (q : ℚ) : String := toString q

/-- The shared except-branch shape of every tool: on a parse failure or a
body exception, a dict with the single key error whose value prefixes the
tool's failure text to the exception text. -/
def toolResult (failText : String) (input : Option Json)
    (body : Json → Except String (List (String × Json))) : Json :=
  match input with
  | none => .obj [("error", .str (failText ++ "Expecting value: line 1 column 1 (char 0)"))]
  | some d =>
      match body d with
      | .ok entries => .obj entries
      | .error e => .obj [("error", .str (failText ++ e))]

/-- Python sum() over dict values: left-to-right addition starting at 0,
raising TypeError at the first non-numeric value. -/
def sumNums : List Json → Except String ℚ
  | [] => .ok 0
  | v :: vs => do
      let a ← asNum v
      let rest ← sumNums vs
      pure (a + rest)

/-- The per-category loop of analyze_spending_categories, returning the
category_breakdown entries, high_spend_categories and optimization_targets
in iteration order. -/
def spendFold (total_spending : ℚ) :
    List (String × Json) →
    Except String (List (String × Json) × List String × List Json)
  | [] => .ok ([], [], [])
  | (category, amount) :: rest => do
      let percentage ←
        if total_spending > 0 then do
          let a ← asNum amount
          pure (a / total_spending * 100)
        else pure (0 : ℚ)
      let status : String :=
        if percentage > 25 then "high"
        else if percentage > 15 then "moderate" else "normal"
      let priority : String :=
        if percentage > 25 then "immediate"
        else if percentage > 15 then "review" else "monitor"
      let optEntry ←
        if status = "high" ∨ status = "moderate" then do
          let a ← asNum amount
          let potential_reduction := a * (if status = "high" then 0.25 else 0.15)
          pure [Json.obj [("category", .str category),
                          ("current", amount),
                          ("potential_savings", .num potential_reduction),
                          ("reduction_percentage", .num (if status = "high" then 25 else 15))]]
        else pure []
      let amtPos ← pyGt amount 0
      let monthly_average ←
        if amtPos then do
          let a ← asNum amount
          pure (Json.num (a / 3))
        else pure (Json.num 0)
      let insight := Json.obj [("amount", amount),
                               ("percentage", .num percentage),
                               ("status", .str status),
                               ("priority", .str priority),
                               ("monthly_average", monthly_average)]
      let (ins, highs, opts) ← spendFold total_spending rest
      pure ((category, insight) :: ins,
            (if status = "high" then category :: highs else highs),
            optEntry ++ opts)

/-- Body of analyze_spending_categories (budget agent). -/
def analyze_spending_categories_body (data : Json) : Except String (List (String × Json)) := do
  let categories ← pyDictGet data "categories" (.obj [])
  let total_spending ←
    if truthy categories then do
      let vs ← pyValues categories
      sumNums vs
    else pure (0 : ℚ)
  let items ← pyItems categories
  let (insights, highs, opts) ← spendFold total_spending items
  pure [("category_breakdown", .obj insights),
        ("total_spending", .num total_spending),
        ("high_spend_categories", .arr (highs.map Json.str)),
        ("optimization_targets", .arr opts),
        ("spending_distribution", .str (if highs.length ≤ 1 then "balanced" else "concentrated")),
        ("analysis_confidence", .num 0.92)]

/-- analyze_spending_categories: total over arbitrary input. -/
def analyze_spending_categories (input : Option Json) : Json :=
  toolResult "Spending analysis failed: " input analyze_spending_categories_body

/-- One savings strategy together with its sort key (potential savings)
and difficulty, used for priority_order and quick_wins. -/
structure SavingsStrategy where
  entry : Json
  potential : ℚ
  difficulty : String
deriving Repr

/-- The per-category loop of calculate_savings_opportunities: the
elif-chain in source order, with the groceries guard comparing the raw
amount against 600. -/
def savingsFold (monthly_spending : Json) :
    List (String × Json) → Except String (List SavingsStrategy × ℚ)
  | [] => .ok ([], 0)
  | (category, amount) :: rest => do
      let msPos ← pyGt monthly_spending 0
      let percentage ←
        if msPos then do
          let a ← asNum amount
          let m ← asNum monthly_spending
          pure (a / m * 100)
        else pure (0 : ℚ)
      let here ←
        if category.toLower = "dining" && percentage > 20 then do
          let a ← asNum amount
          let potential := a * 0.30
          pure [SavingsStrategy.mk
            (.obj [("category", .str "Dining"),
                   ("strategy", .str "Meal planning and home cooking"),
                   ("current_spending", amount),
                   ("potential_savings", .num potential),
                   ("implementation", .arr [.str "Plan meals weekly",
                     .str "Cook at home 4 days/week", .str "Use grocery lists"]),
                   ("difficulty", .str "moderate"),
                   ("timeline", .str "2-4 weeks")]) potential "moderate"]
        else if category.toLower = "entertainment" && percentage > 15 then do
          let a ← asNum amount
          let potential := a * 0.25
          pure [SavingsStrategy.mk
            (.obj [("category", .str "Entertainment"),
                   ("strategy", .str "Smart entertainment choices"),
                   ("current_spending", amount),
                   ("potential_savings", .num potential),
                   ("implementation", .arr [.str "Use streaming instead of theaters",
                     .str "Look for free community events", .str "Share subscriptions"]),
                   ("difficulty", .str "easy"),
                   ("timeline", .str "1-2 weeks")]) potential "easy"]
        else if category.toLower = "groceries" then do
          let big ← pyGt amount 600
          if big then do
            let a ← asNum amount
            let potential := min (a * 0.15) 150
            pure [SavingsStrategy.mk
              (.obj [("category", .str "Groceries"),
                     ("strategy", .str "Smart grocery shopping"),
                     ("current_spending", amount),
                     ("potential_savings", .num potential),
                     ("implementation", .arr [.str "Buy generic brands",
                       .str "Use coupons and sales", .str "Buy in bulk for non-perishables"]),
                     ("difficulty", .str "easy"),
                     ("timeline", .str "immediate")]) potential "easy"]
          else pure []
        else pure []
      let (strategies, totalRest) ← savingsFold monthly_spending rest
      pure (here ++ strategies, (here.map SavingsStrategy.potential).sum + totalRest)

/-- Stable descending insertion by potential savings, the embedding of
sorted(savings_strategies, key potential_savings, reverse) — Python's
sorted is stable, and reverse keeps the original order of equal keys. -/
def insertByPotential (x : SavingsStrategy) : List SavingsStrategy → List SavingsStrategy
  | [] => [x]
  | y :: ys => if x.potential ≥ y.potential then x :: y :: ys else y :: insertByPotential x ys

/-- Stable sort by descending potential savings. -/
def sortByPotential (l : List SavingsStrategy) : List SavingsStrategy :=
  l.foldr insertByPotential []

/-- Body of calculate_savings_opportunities (budget agent). -/
def calculate_savings_opportunities_body (data : Json) : Except String (List (String × Json)) := do
  let _balance ← pyDictGet data "balance" (.num 0)
  let monthly_spending ← pyDictGet data "monthly_spending" (.num 0)
  let categories ← pyDictGet data "categories" (.obj [])
  let items ← pyItems categories
  let (strategies, total_potential_savings) ← savingsFold monthly_spending items
  let priority_order := sortByPotential strategies
  pure [("total_monthly_savings_potential", .num total_potential_savings),
        ("savings_strategies", .arr (strategies.map SavingsStrategy.entry)),
        ("implementation_timeline", .obj
          [("month_1", .num (total_potential_savings * 0.3)),
           ("month_3", .num (total_potential_savings * 0.7)),
           ("month_6", .num total_potential_savings)]),
        ("annual_savings_potential", .num (total_potential_savings * 12)),
        ("priority_order", .arr (priority_order.map SavingsStrategy.entry)),
        ("quick_wins", .arr ((strategies.filter fun s => s.difficulty = "easy").map SavingsStrategy.entry)),
        ("confidence", .num 0.88)]

/-- calculate_savings_opportunities: total over arbitrary input. -/
def calculate_savings_opportunities (input : Option Json) : Json :=
  toolResult "Savings calculation failed: " input calculate_savings_opportunities_body

/-- Body of assess_emergency_fund (budget agent). -/
def assess_emergency_fund_body (data : Json) : Except String (List (String × Json)) := do
  let balance ← pyDictGet data "balance" (.num 0)
  let msDefault ← pyDictGet data "monthly_spending" (.num 0)
  let monthly_expenses ← pyDictGet data "monthly_expenses" msDefault
  let income_stability ← pyDictGet data "income_stability" (.str "stable")
  let meq ← asNum monthly_expenses
  let (months_covered, target_amount, target_months, shortfall, status, priority) ←
    if meq > 0 then do
      let balq ← asNum balance
      let months_covered := balq / meq
      let (target_months, adequacy_threshold) : ℚ × ℚ :=
        if pyEqb income_stability (.str "uncertain") then (12, 9)
        else if pyEqb income_stability (.str "variable") then (9, 6)
        else (6, 4)
      let target_amount := meq * target_months
      let shortfall := max 0 (target_amount - balq)
      let (status, priority) : String × String :=
        if months_covered ≥ adequacy_threshold then ("adequate", "low")
        else if months_covered ≥ 3 then ("moderate", "medium")
        else ("critical", "high")
      pure (months_covered, target_amount, target_months, shortfall, status, priority)
    else do
      let balq ← asNum balance
      pure ((0 : ℚ), (5000 : ℚ), (6 : ℚ), 5000 - balq, "critical", "high")
  let building_strategy : List Json :=
    if shortfall > 0 then
      let monthly_contribution := min (shortfall / 12) (meq * 0.1)
      let timeline_months := if monthly_contribution > 0 then shortfall / monthly_contribution else 12
      [.str ("Set aside $" ++ fmtQ monthly_contribution ++ " per month"),
       .str "Use high-yield savings account for emergency fund",
       .str "Automate transfers on payday",
       .str "Keep emergency fund separate from checking account",
       .str ("Timeline to full fund: " ++ fmtQ timeline_months ++ " months")]
    else []
  pure [("current_balance", balance),
        ("months_covered", .num months_covered),
        ("target_amount", .num target_amount),
        ("target_months", .num target_months),
        ("shortfall", .num shortfall),
        ("status", .str status),
        ("priority", .str priority),
        ("income_stability_factor", income_stability),
        ("building_strategy", .arr building_strategy),
        ("fund_placement_recommendations", .arr
          [.str "High-yield savings account (4-5% APY)",
           .str "Money market account for easy access",
           .str "Short-term CDs for portion of fund",
           .str "Avoid investing emergency fund in stocks"]),
        ("adequacy_score", .num (min 100 (months_covered / target_months * 100))),
        ("confidence", .num 0.95)]

/-- assess_emergency_fund: total over arbitrary input. -/
def assess_emergency_fund (input : Option Json) : Json :=
  toolResult "Emergency fund assessment failed: " input assess_emergency_fund_body

/-- Python membership test k in v: key membership on dicts, substring on
strings, element equality on lists, TypeError elsewhere. -/
def pyContains (v : Json) (k : String) : Except String Bool :=
  match v with
  | .obj kvs => .ok (assocHasKey kvs k)
  | .str s => .ok (strContains s k)
  | .arr l => .ok (l.any (pyEqb (.str k)))
  | _ => .error "TypeError: argument is not iterable"

/-- Per-server parameters of the shared /a2a/process skeleton. -/
structure A2AServerCfg where
  sender_id : String
  agent_type : String
  conf_default : ℚ
  recsOf : Json → Except String Json
  route : Json → Json → Except String Json
  sub_agent_names : List String
  tools_used : List String
  sub_agents_available : ℕ

/-- An HTTP response of the endpoint: status code and JSON body. -/
structure A2AResponse where
  status : ℕ
  body : Json
deriving Repr

/-- The required A2A message fields. -/
def requiredFields : List String :=
  ["message_id", "sender_id", "receiver_id", "message_type", "payload"]

/-- The protocol check: if x_a2a_protocol and x_a2a_protocol is not the
supported version — by Python truthiness an absent or empty header
passes. -/
def protoUnsupported (xp : Option String) : Bool :=
  match xp with
  | some p => p ≠ "" && p ≠ "financial-advisor-v1"
  | none => false

/-- message.get(k) on the body dict (default None). -/
def msgGet (message : List (String × Json)) (k : String) : Json :=
  (assocLookup message k).getD .null

/-- message.get(k, d) on the body dict. -/
def msgGetD (message : List (String × Json)) (k : String) (d : Json) : Json :=
  (assocLookup message k).getD d

/-- The correlation_id of the success response:
x_correlation_id or message.get("correlation_id") — Python or, so an
absent or empty header falls back to the body field. -/
def corrOf (xc : Option String) (message : List (String × Json)) : Json :=
  match xc with
  | some c => if c = "" then msgGet message "correlation_id" else .str c
  | none => msgGet message "correlation_id"

/-- The standardized success-path A2A response dict.  The status field is
success exactly when the routed analysis result has no top-level error
key; confidence and recommendations are read off the analysis result and
can raise (into the outer handler) when it is not a dict. -/
def buildA2aBody (cfg : A2AServerCfg) (message : List (String × Json))
    (xc : Option String) (message_type rd : Json) (ts : String) :
    Except String Json := do
  let hasErr ← pyContains rd "error"
  let conf ← pyDictGet rd "confidence" (.num cfg.conf_default)
  let recs ← cfg.recsOf rd
  pure (.obj
    [("message_id", msgGet message "message_id"),
     ("correlation_id", corrOf xc message),
     ("sender_id", .str cfg.sender_id),
     ("receiver_id", msgGet message "sender_id"),
     ("response_to", message_type),
     ("timestamp", .str ts),
     ("status", .str (if hasErr then "error" else "success")),
     ("payload", .obj
       [("agent_type", .str cfg.agent_type),
        ("sub_agents_coordination", .bool true),
        ("adk_enabled", .bool true),
        ("analysis_results", rd),
        ("confidence", conf),
        ("recommendations", recs),
        ("processing_metadata", .obj
          [("adk_sub_agents", .arr (cfg.sub_agent_names.map Json.str)),
           ("tools_used", .arr (cfg.tools_used.map Json.str)),
           ("processing_time", .str ts)])])])

/-- The outer exception handler's standardized error response (HTTP 200,
status error, error text inside payload). -/
def a2aErrorBody (cfg : A2AServerCfg) (message : List (String × Json))
    (xc : Option String) (e ts : String) : Json :=
  .obj [("message_id", msgGetD message "message_id" (.str "unknown")),
        ("correlation_id", match xc with | some c => .str c | none => .null),
        ("sender_id", .str cfg.sender_id),
        ("receiver_id", msgGetD message "sender_id" (.str "unknown")),
        ("response_to", msgGetD message "message_type" (.str "unknown")),
        ("timestamp", .str ts),
        ("status", .str "error"),
        ("payload", .obj
          [("agent_type", .str cfg.agent_type),
           ("error", .str ("A2A processing failed: " ++ e)),
           ("adk_enabled", .bool true),
           ("sub_agents_available", .num cfg.sub_agents_available)])]

/-- The routed-analysis-plus-response-building step of the endpoint (the
part of the try block after validation): any exception it raises lands in
the outer handler. -/
def a2aRouteBuild (cfg : A2AServerCfg) (message : List (String × Json))
    (xc : Option String) (ts : String) : Except String Json := do
  let message_type := msgGet message "message_type"
  let payload := msgGetD message "payload" (.obj [])
  let rd ← cfg.route message_type payload
  buildA2aBody cfg message xc message_type rd ts

/-- The /a2a/process endpoint: missing-field validation (HTTP 400),
protocol-version validation (HTTP 400), routing to the analysis tools,
response building, and the outer exception handler (HTTP 200). -/
def process_a2a_message (cfg : A2AServerCfg) (message : List (String × Json))
    (xp xc : Option String) (ts : String) : A2AResponse :=
  let missing_fields := requiredFields.filter fun f => !assocHasKey message f
  if !missing_fields.isEmpty then
    { status := 400,
      body := .obj [("detail", .str ("Invalid A2A message format. Missing fields: " ++
        reprStrList missing_fields))] }
  else if protoUnsupported xp then
    { status := 400,
      body := .obj [("detail", .str ("Unsupported A2A protocol version: " ++
        (xp.getD "")))] }
  else
    match a2aRouteBuild cfg message xc ts with
    | .ok body => { status := 200, body := body }
    | .error e => { status := 200, body := a2aErrorBody cfg message xc e ts }

/-- Lookup along a key path, for inspecting nested response fields. -/
def lookupPath : Json → List String → Option Json
  | j, [] => some j
  | j, k :: ks =>
      match j.lookup k with
      | some v => lookupPath v ks
      | none => none

/-- The routing block of the budget server: analyze_spending builds the
spending_data dict from payload.financial_data (each .get can raise into
the outer handler), the two named message types pass the payload to their
tool, and the default branch combines the two analyses.  The tools always
return serialized JSON, so the json.loads round-trip of their results
never takes its JSONDecodeError branch and is collapsed here. -/
def budgetRoute (message_type payload : Json) : Except String Json :=
  if pyEqb message_type (.str "analyze_spending") then do
    let financial_data ← pyDictGet payload "financial_data" (.obj [])
    let sa1 ← pyDictGet financial_data "spending_analysis" (.obj [])
    let cats ← pyDictGet sa1 "categories" (.obj [])
    let bal ← pyDictGet financial_data "balance" (.obj [])
    let balAmt ← pyDictGet bal "amount" (.num 0)
    let sa2 ← pyDictGet financial_data "spending_analysis" (.obj [])
    let avg ← pyDictGet sa2 "average_monthly" (.num 0)
    let spending_data := Json.obj [("categories", cats), ("balance", balAmt),
                                   ("monthly_spending", avg)]
    pure (analyze_spending_categories (some spending_data))
  else if pyEqb message_type (.str "create_savings_plan") then
    pure (calculate_savings_opportunities (some payload))
  else if pyEqb message_type (.str "assess_emergency_fund") then
    pure (assess_emergency_fund (some payload))
  else do
    let financial_data ← pyDictGet payload "financial_data" (.obj [])
    let spending_result := analyze_spending_categories (some financial_data)
    let savings_result := calculate_savings_opportunities (some financial_data)
    pure (.obj [("agent_id", .str "budget_agent_full_adk"),
      ("sub_agents_used", .arr [.str "spending_analyzer", .str "savings_strategist"]),
      ("spending_analysis", spending_result),
      ("savings_analysis", savings_result),
      ("summary", .str "Comprehensive budget analysis completed using ADK sub-agents")])

/-- The budget server's recommendations extraction:
response_data.get("recommendations", response_data.get("optimization_opportunities", []))
with the inner get evaluated first, as in Python. -/
def budgetRecs (rd : Json) : Except String Json := do
  let inner ← pyDictGet rd "optimization_opportunities" (.arr [])
  pyDictGet rd "recommendations" inner

/-- The budget server configuration (literals of budget-agent/server.py;
root_agent.tools is the empty list, so tools_used is empty). -/
def budgetCfg : A2AServerCfg :=
  { sender_id := "budget_agent_full_adk",
    agent_type := "budget_analysis",
    conf_default := 0.85,
    recsOf := budgetRecs,
    route := budgetRoute,
    sub_agent_names := ["spending_analyzer", "savings_strategist",
                        "emergency_fund_advisor", "budget_planner"],
    tools_used := [],
    sub_agents_available := 4 }

/-- The registry URL of the budget agent, used to pin one dispatch target
in concurrency statements. -/
def budgetAgentUrl : String :=
  "http://budget-agent.financial-advisor.svc.cluster.local:8080/analyze"

/-- A well-formed analyze_spending A2A message whose category values make
the spending tool raise internally (a string is summed). -/
def c7msg : List (String × Json) :=
  [("message_id", .str "m1"), ("sender_id", .str "coordinator"),
   ("receiver_id", .str "budget"), ("message_type", .str "analyze_spending"),
   ("payload", .obj [("financial_data", .obj
     [("spending_analysis", .obj [("categories", .obj [("food", .str "bad")])])])])]

/-- A well-formed assess_emergency_fund A2A message used to exercise the
success path of the endpoint. -/
def c7okmsg : List (String × Json) :=
  [("message_id", .str "m2"), ("sender_id", .str "coordinator"),
   ("receiver_id", .str "budget"), ("message_type", .str "assess_emergency_fund"),
   ("payload", .obj [])]

/-- A well-formed A2A message carrying its own correlation_id field. -/
def c10msg : List (String × Json) :=
  [("message_id", .str "m1"), ("sender_id", .str "coordinator"),
   ("receiver_id", .str "budget"), ("message_type", .str "assess_emergency_fund"),
   ("payload", .obj []), ("correlation_id", .str "zzz")]

/-- A second well-formed A2A message, for the echo witness. -/
def c10wmsg : List (String × Json) :=
  [("message_id", .str "m9"), ("sender_id", .str "coordinator"),
   ("receiver_id", .str "budget"), ("message_type", .str "assess_emergency_fund"),
   ("payload", .obj [])]

/-
Theorems.
-/

/-- Helper: the result-processing loop, fed the gathered results of a list
of targets each of which produced a dict, returns one AgentResponse per
target, labelled positionally. -/
theorem processResults_map_spec (names : List String) (f : String → Except String Json)
    (h : ∀ n ∈ names, ∃ kvs, f n = .ok (.obj kvs)) :
    ∃ outs, processResults (names.map f) names = .ok outs ∧
      outs.map AgentResponse.agent_type = names := by
  induction names with
  | nil => exact ⟨[], rfl, rfl⟩
  | cons n ns ih =>
      obtain ⟨kvs, hk⟩ := h n (List.mem_cons_self _ _)
      obtain ⟨outs, ho, hm⟩ := ih (fun m hm2 => h m (List.mem_cons_of_mem _ hm2))
      refine ⟨{ agent_type := n, result := .obj kvs,
                confidence := (assocLookup kvs "confidence").getD (.num (4 / 5)),
                recommendations := (assocLookup kvs "recommendations").getD (.arr []) } :: outs,
              ?_, ?_⟩
      · simp only [List.map_cons, processResults, hk, ho, pyDictGet, bind, Except.bind]
        rfl
      · simp [hm]

/-- Helper: when every plan target resolves in the registry, the task
filter keeps the whole target list. -/
theorem filter_resolved_eq_self (names : List String)
    (h : ∀ n ∈ names, (regLookup coordinatorAgents n).isSome) :
    names.filter (fun n => (regLookup coordinatorAgents n).isSome) = names :=
  List.filter_eq_self.mpr (fun a ha => h a ha)

/-- C1 (counterexample): a plan whose only target is not in the registry
produces an empty outcome list (no locally synthesized TransportError
outcome), and with the unresolvable target first, the single outcome of a
two-target plan carries the first (unresolved) target's name although its
result came from the dispatch to the budget agent — the agent field does
not match the target that produced it. -/
theorem C1_cex :
    coordinate_agents (fun _ _ => .resp 200 (.ok (.obj []))) ⟨["unknown"], .null⟩ .null "t" =
      .ok [] ∧
    coordinate_agents (fun _ _ => .resp 200 (.ok (.obj [("tag", .str "frombudget")])))
      ⟨["ghost", "budget"], .null⟩ .null "t" =
      .ok [{ agent_type := "ghost", result := .obj [("tag", .str "frombudget")],
             confidence := .num (4 / 5), recommendations := .arr [] }] :=
  ⟨rfl, rfl⟩

/-- C1 (amended): when every plan target resolves in the registry and
every dispatch result is a dict, coordinate_agents returns exactly one
outcome per planned target, in plan order, with matching agent labels;
a target that does not resolve is silently skipped instead of yielding a
synthesized TransportError outcome, and its absence misaligns the agent
labels of the remaining outcomes. -/
theorem C1_coordinate_amended (net : String → Json → HttpResult)
    (plan : CoordinationPlan) (ud : Json) (ts : String)
    (hres : ∀ n ∈ plan.required_agents, (regLookup coordinatorAgents n).isSome)
    (hobj : ∀ n ∈ plan.required_agents,
      ∃ kvs, call_agent net n ud plan.context_for_agents ts = .ok (.obj kvs)) :
    ∃ outs, coordinate_agents net plan ud ts = .ok outs ∧
      outs.map AgentResponse.agent_type = plan.required_agents ∧
      outs.length = plan.required_agents.length := by
  obtain ⟨outs, ho, hm⟩ := processResults_map_spec plan.required_agents _ hobj
  refine ⟨outs, ?_, hm, ?_⟩
  · simpa only [coordinate_agents, filter_resolved_eq_self plan.required_agents hres] using ho
  · rw [← hm, List.length_map]

/-- C1 (witness): the amended statement applied to a two-target plan whose
agents both resolve and answer with JSON dicts. -/
theorem C1_coordinate_amended_witness :
    ∃ outs, coordinate_agents (fun _ _ => .resp 200 (.ok (.obj [])))
        ⟨["budget", "investment"], .null⟩ .null "t" = .ok outs ∧
      outs.map AgentResponse.agent_type = ["budget", "investment"] ∧
      outs.length = (["budget", "investment"] : List String).length :=
  C1_coordinate_amended _ ⟨["budget", "investment"], .null⟩ .null "t"
    (by intro n hn; fin_cases hn <;> decide)
    (by intro n hn; fin_cases hn <;> exact ⟨[], rfl⟩)

/-- C2 (counterexample): planning raises.  With user data whose balance
field is the number 5 (not a dict), the prompt construction that precedes
the try block raises AttributeError out of analyze_user_query, for any LLM
behavior — so plan is not total over every user-data input. -/
theorem C2_cex :
    analyze_user_query (fun _ => .ok .null) "" (.obj [("balance", .num 5)]) =
      .error "AttributeError: object has no attribute get" := rfl

/-- C2 (amended): whenever the prompt-context extraction succeeds (the
balance and spending_analysis fields, where present, are dicts, and the
categories field of spending_analysis is a dict), analyze_user_query never
raises: any LLM failure yields the fixed fallback plan, whose agent list
names every available agent, and an LLM success is returned verbatim.  The
fallback plan carries no message type field (its fields are intent,
required_agents, agent_priorities, context_for_agents, expected_outcome). -/
theorem C2_plan_amended (llm : String → Except String Json) (query : String)
    (user_data : Json) (ctx : Json × Json × List String)
    (hctx : planPromptContext user_data = .ok ctx) :
    (∀ e, llm (planPrompt query ctx.1 ctx.2.1 ctx.2.2) = .error e →
       analyze_user_query llm query user_data = .ok (fallback_plan user_data)) ∧
    (∀ j, llm (planPrompt query ctx.1 ctx.2.1 ctx.2.2) = .ok j →
       analyze_user_query llm query user_data = .ok j) ∧
    (fallback_plan user_data).lookup "required_agents" =
      some (.arr [.str "budget", .str "investment", .str "security"]) ∧
    (fallback_plan user_data).keys =
      ["intent", "required_agents", "agent_priorities", "context_for_agents",
       "expected_outcome"] := by
  obtain ⟨a, b, c⟩ := ctx
  refine ⟨?_, ?_, rfl, rfl⟩ <;> intro x hx <;>
    simp [analyze_user_query, hctx, hx, bind, Except.bind, pure, Except.pure]

/-- C2 (witness): the amended statement applied to empty user data and a
failing LLM. -/
theorem C2_plan_amended_witness :
    (∀ e, (fun _ => (.error "down" : Except String Json))
        (planPrompt "" (Json.num 0) (Json.num 0) []) = .error e →
       analyze_user_query (fun _ => .error "down") "" (.obj []) =
         .ok (fallback_plan (.obj []))) ∧
    (∀ j, (fun _ => (.error "down" : Except String Json))
        (planPrompt "" (Json.num 0) (Json.num 0) []) = .ok j →
       analyze_user_query (fun _ => .error "down") "" (.obj []) = .ok j) ∧
    (fallback_plan (.obj [])).lookup "required_agents" =
      some (.arr [.str "budget", .str "investment", .str "security"]) ∧
    (fallback_plan (.obj [])).keys =
      ["intent", "required_agents", "agent_priorities", "context_for_agents",
       "expected_outcome"] :=
  C2_plan_amended (fun _ => .error "down") "" (.obj []) (.num 0, .num 0, []) rfl

/-- C3 (counterexample): with an empty outcome list and a failing external
synthesis step, synthesize_response returns the template fallback, which
carries no overall_status field at all (and no other degraded marker), so
the degraded result is not tagged. -/
theorem C3_cex :
    synthesize_response (fun _ => .error "llm down") "q" [] =
      .ok (.obj [("summary", .str "I\x27ve analyzed your financial situation with our specialized agents."),
        ("detailed_plan", .arr []),
        ("key_insights", .arr []),
        ("next_actions", .arr [.str "Review the recommendations",
                               .str "Consider implementing suggested changes"]),
        ("monitoring", .str "Track your progress monthly")]) ∧
    (Json.obj [("summary", .str "I\x27ve analyzed your financial situation with our specialized agents."),
        ("detailed_plan", .arr []),
        ("key_insights", .arr []),
        ("next_actions", .arr [.str "Review the recommendations",
                               .str "Consider implementing suggested changes"]),
        ("monitoring", .str "Track your progress monthly")]).lookup "overall_status" = none :=
  ⟨rfl, rfl⟩

/-- Helper: the fallback's list comprehension succeeds when every
recommendations field is a list. -/
theorem flatRecs_ok (rs : List AgentResponse)
    (h : ∀ r ∈ rs, ∃ l, r.recommendations = .arr l) :
    ∃ out, flatRecs rs = .ok out := by
  induction rs with
  | nil => exact ⟨[], rfl⟩
  | cons r rest ih =>
      obtain ⟨l, hl⟩ := h r (List.mem_cons_self _ _)
      obtain ⟨out, hout⟩ := ih (fun m hm => h m (List.mem_cons_of_mem _ hm))
      exact ⟨l ++ out, by simp [flatRecs, hl, hout, pyIter, bind, Except.bind, pure, Except.pure]⟩

/-- C3 (amended): when every outcome's recommendations value is a list
(as produced by a JSON response or by call_agent's error dict),
synthesize_response never raises; on external-synthesis failure it returns
the fixed template, which is not tagged: it has no overall_status field.
(When a recommendations value is not iterable, the fallback's list
comprehension itself raises, so the never-raises guarantee does not extend
to arbitrary outcome lists.) -/
theorem C3_synthesize_amended (llm : String → Except String Json) (query : String)
    (rs : List AgentResponse)
    (hrec : ∀ r ∈ rs, ∃ l, r.recommendations = .arr l) :
    (∃ j, synthesize_response llm query rs = .ok j) ∧
    (∀ e, llm (synthPrompt query (agent_insights rs)) = .error e →
      ∃ fb, synthesize_response llm query rs = .ok fb ∧
        fb.lookup "overall_status" = none ∧
        fb.lookup "summary" =
          some (.str "I\x27ve analyzed your financial situation with our specialized agents.")) := by
  obtain ⟨out, hout⟩ := flatRecs_ok rs hrec
  cases hllm : llm (synthPrompt query (agent_insights rs)) with
  | ok j =>
      refine ⟨⟨j, by simp [synthesize_response, hllm]⟩, fun e he => ?_⟩
      simp at he
  | error e0 =>
      have hval : synthesize_response llm query rs =
          .ok (.obj [("summary", .str "I\x27ve analyzed your financial situation with our specialized agents."),
            ("detailed_plan", .arr out),
            ("key_insights", .arr (rs.map fun r =>
              Json.str (r.agent_type ++ " agent provided analysis"))),
            ("next_actions", .arr [.str "Review the recommendations",
                                   .str "Consider implementing suggested changes"]),
            ("monitoring", .str "Track your progress monthly")]) := by
        simp [synthesize_response, hllm, synth_fallback, hout, bind, Except.bind, pure, Except.pure]
      exact ⟨⟨_, hval⟩, fun e _ => ⟨_, hval, rfl, rfl⟩⟩

/-- C3 (witness): the amended statement applied to the empty outcome list
and a failing external synthesis step. -/
theorem C3_synthesize_amended_witness :
    (∃ j, synthesize_response (fun _ => .error "down") "q" [] = .ok j) ∧
    (∀ e, (fun _ => (.error "down" : Except String Json))
        (synthPrompt "q" (agent_insights [])) = .error e →
      ∃ fb, synthesize_response (fun _ => .error "down") "q" [] = .ok fb ∧
        fb.lookup "overall_status" = none ∧
        fb.lookup "summary" =
          some (.str "I\x27ve analyzed your financial situation with our specialized agents.")) :=
  C3_synthesize_amended (fun _ => .error "down") "q" [] (by intro r hr; cases hr)

/-- C4 (counterexample): the Dispatcher does not classify by HTTP status.
A response with status 500 and a parseable JSON body is returned as-is by
call_agent — an outcome with no error field at all, indistinguishable from
success — instead of a TransportError carrying the status code. -/
theorem C4_cex :
    call_agent (fun _ _ => .resp 500 (.ok (.obj [("x", .num 1)]))) "budget" .null .null "t" =
      .ok (.obj [("x", .num 1)]) ∧
    (Json.obj [("x", .num 1)]).lookup "error" = none :=
  ⟨rfl, rfl⟩

/-- C4 (amended): call_agent classifies only by exception.  Whatever the
HTTP status, a response whose body parses as JSON is returned verbatim;
a body-parse failure and a transport exception both collapse to the same
generic error dict (error text, confidence 0, empty recommendations),
with no distinct MalformedResponse or TransportError classification and
no status code recorded. -/
theorem C4_dispatch_amended (net : String → Json → HttpResult)
    (agent_name url : String) (ud ctx : Json) (ts : String)
    (hreg : regLookup coordinatorAgents agent_name = some url) :
    (∀ status j, net url (call_agent_payload ud ctx ts) = .resp status (.ok j) →
       call_agent net agent_name ud ctx ts = .ok j) ∧
    (∀ status msg, net url (call_agent_payload ud ctx ts) = .resp status (.error msg) →
       call_agent net agent_name ud ctx ts = .ok (callAgentErrDict agent_name msg)) ∧
    (∀ k msg, net url (call_agent_payload ud ctx ts) = .exc k msg →
       call_agent net agent_name ud ctx ts = .ok (callAgentErrDict agent_name msg)) := by
  refine ⟨?_, ?_, ?_⟩ <;> intro a b hb <;> simp [call_agent, hreg, hb]

/-- C4 (witness): the amended statement applied to a 500 response with a
JSON body and to a 200 response with an unparsable body. -/
theorem C4_dispatch_amended_witness :
    call_agent (fun _ _ => .resp 500 (.ok (.obj [("ok", .bool true)]))) "budget" .null .null "t" =
      .ok (.obj [("ok", .bool true)]) ∧
    call_agent (fun _ _ => .resp 200 (.error "Expecting value")) "budget" .null .null "t" =
      .ok (callAgentErrDict "budget" "Expecting value") :=
  ⟨(C4_dispatch_amended _ "budget" budgetAgentUrl .null .null "t" rfl).1 500 _ rfl,
   (C4_dispatch_amended _ "budget" budgetAgentUrl .null .null "t" rfl).2.1 200 _ rfl⟩

/-- C5 (counterexample): a timed-out dispatch and a transport-failed
dispatch with the same exception text produce identical outcomes — there
is no distinct Timeout status (the outcome has no status field at all). -/
theorem C5_cex :
    call_agent (fun _ _ => .exc .timeout "boom") "budget" .null .null "t" =
      call_agent (fun _ _ => .exc .transport "boom") "budget" .null .null "t" ∧
    (callAgentErrDict "budget" "boom").lookup "status" = none :=
  ⟨rfl, rfl⟩

/-- C5 (amended): a dispatch that times out yields the same generic error
dict as any other transport failure, and sibling dispatches are unaffected
by it: if two networks agree on every endpoint other than the budget
agent's, and on the budget endpoint one times out while the other raises a
transport error with the same text, every outcome of coordinate_agents —
the budget agent's and all siblings' — is identical. -/
theorem C5_timeout_amended (msg : String) (net net2 : String → Json → HttpResult)
    (plan : CoordinationPlan) (ud : Json) (ts : String)
    (hsib : ∀ u p, u ≠ budgetAgentUrl → net u p = net2 u p)
    (hb : ∀ p, net budgetAgentUrl p = .exc .timeout msg)
    (hb2 : ∀ p, net2 budgetAgentUrl p = .exc .transport msg) :
    coordinate_agents net plan ud ts = coordinate_agents net2 plan ud ts := by
  have hcall : ∀ n, call_agent net n ud plan.context_for_agents ts =
      call_agent net2 n ud plan.context_for_agents ts := by
    intro n
    cases hr : regLookup coordinatorAgents n with
    | none => simp [call_agent, hr]
    | some url =>
        by_cases hu : url = budgetAgentUrl
        · subst hu; simp [call_agent, hr, hb, hb2]
        · simp [call_agent, hr, hsib url _ hu]
  unfold coordinate_agents
  exact congrArg (fun l => processResults l plan.required_agents)
    (List.map_congr_left (fun n _ => hcall n))

/-- C5 (witness): the amended statement applied to a two-target plan where
the budget dispatch times out on one network and transport-fails on the
other while the investment dispatch succeeds identically on both. -/
theorem C5_timeout_amended_witness :
    coordinate_agents
        (fun u _ => if u = budgetAgentUrl then .exc .timeout "boom"
                    else .resp 200 (.ok (.obj [])))
        ⟨["budget", "investment"], .null⟩ .null "t" =
      coordinate_agents
        (fun u _ => if u = budgetAgentUrl then .exc .transport "boom"
                    else .resp 200 (.ok (.obj [])))
        ⟨["budget", "investment"], .null⟩ .null "t" :=
  C5_timeout_amended "boom" _ _ ⟨["budget", "investment"], .null⟩ .null "t"
    (by intro u p hu; simp [hu])
    (by intro p; simp)
    (by intro p; simp)

/-- C6 (counterexample): neither of the two request envelopes of a
two-target coordination round carries any correlation_id field. -/
theorem C6_cex :
    (coordinate_envelopes ⟨["budget", "investment"], .null⟩ .null "t").map
      (fun e => e.lookup "correlation_id") = [none, none] ∧
    (coordinate_envelopes ⟨["budget", "investment"], .null⟩ .null "t").length = 2 :=
  ⟨rfl, rfl⟩

/-- C6 (amended): for a plan whose k targets all resolve, the coordinator
produces k request payloads, each carrying exactly user_data, context,
timestamp and requesting_agent (value coordinator) — and no correlation_id
field at all, on requests or outcomes (AgentResponse has no such field). -/
theorem C6_envelopes_amended (plan : CoordinationPlan) (ud : Json) (ts : String)
    (hres : ∀ n ∈ plan.required_agents, (regLookup coordinatorAgents n).isSome) :
    (coordinate_envelopes plan ud ts).length = plan.required_agents.length ∧
    ∀ e ∈ coordinate_envelopes plan ud ts,
      e.keys = ["user_data", "context", "timestamp", "requesting_agent"] ∧
      e.lookup "correlation_id" = none ∧
      e.lookup "requesting_agent" = some (.str "coordinator") := by
  constructor
  · unfold coordinate_envelopes
    rw [filter_resolved_eq_self plan.required_agents hres, List.length_map]
  · intro e he
    unfold coordinate_envelopes at he
    obtain ⟨n, _, hn⟩ := List.mem_map.mp he
    subst hn
    exact ⟨rfl, rfl, rfl⟩

/-- C6 (witness): the amended statement applied to a concrete two-target
plan whose targets both resolve. -/
theorem C6_envelopes_amended_witness :
    (coordinate_envelopes ⟨["budget", "security"], .null⟩ (.obj []) "t").length =
      (⟨["budget", "security"], .null⟩ : CoordinationPlan).required_agents.length ∧
    ∀ e ∈ coordinate_envelopes ⟨["budget", "security"], .null⟩ (.obj []) "t",
      e.keys = ["user_data", "context", "timestamp", "requesting_agent"] ∧
      e.lookup "correlation_id" = none ∧
      e.lookup "requesting_agent" = some (.str "coordinator") :=
  C6_envelopes_amended ⟨["budget", "security"], .null⟩ (.obj []) "t"
    (by intro n hn; fin_cases hn <;> decide)

/-- Helper: inversion of the success path of the endpoint — a built
response exposes the routed analysis result, the status tag computed from
its error key, and the echoed message fields. -/
theorem a2aRouteBuild_inv (cfg : A2AServerCfg) (message : List (String × Json))
    (xc : Option String) (ts : String) (b : Json)
    (h : a2aRouteBuild cfg message xc ts = .ok b) :
    ∃ rd hasErr conf recs,
      cfg.route (msgGet message "message_type") (msgGetD message "payload" (.obj [])) = .ok rd ∧
      pyContains rd "error" = .ok hasErr ∧
      pyDictGet rd "confidence" (.num cfg.conf_default) = .ok conf ∧
      cfg.recsOf rd = .ok recs ∧
      b = .obj
        [("message_id", msgGet message "message_id"),
         ("correlation_id", corrOf xc message),
         ("sender_id", .str cfg.sender_id),
         ("receiver_id", msgGet message "sender_id"),
         ("response_to", msgGet message "message_type"),
         ("timestamp", .str ts),
         ("status", .str (if hasErr then "error" else "success")),
         ("payload", .obj
           [("agent_type", .str cfg.agent_type),
            ("sub_agents_coordination", .bool true),
            ("adk_enabled", .bool true),
            ("analysis_results", rd),
            ("confidence", conf),
            ("recommendations", recs),
            ("processing_metadata", .obj
              [("adk_sub_agents", .arr (cfg.sub_agent_names.map Json.str)),
               ("tools_used", .arr (cfg.tools_used.map Json.str)),
               ("processing_time", .str ts)])])] := by
  unfold a2aRouteBuild buildA2aBody at h
  simp only [bind, Except.bind] at h
  cases hroute : cfg.route (msgGet message "message_type") (msgGetD message "payload" (.obj [])) with
  | error e0 => simp only [hroute] at h; exact Except.noConfusion h
  | ok rd =>
      simp only [hroute] at h
      cases hce : pyContains rd "error" with
      | error e1 => simp only [hce] at h; exact Except.noConfusion h
      | ok hasErr =>
          simp only [hce] at h
          cases hcf : pyDictGet rd "confidence" (.num cfg.conf_default) with
          | error e2 => simp only [hcf] at h; exact Except.noConfusion h
          | ok conf =>
              simp only [hcf] at h
              cases hcr : cfg.recsOf rd with
              | error e3 => simp only [hcr] at h; exact Except.noConfusion h
              | ok recs =>
                  simp only [hcr, pure, Except.pure, Except.ok.injEq] at h
                  exact ⟨rd, hasErr, conf, recs, rfl, hce, hcf, hcr, h.symm⟩

/-- C7 (counterexample): an analyze_spending message whose category values
make the tool fail internally yields HTTP 200 with body status error, but
the payload carries no error field — the error text sits only inside
payload.analysis_results — so not every non-validation failure produces a
payload with an error field. -/
theorem C7_cex :
    (process_a2a_message budgetCfg c7msg none none "ts").status = 200 ∧
    (process_a2a_message budgetCfg c7msg none none "ts").body.lookup "status" =
      some (.str "error") ∧
    lookupPath (process_a2a_message budgetCfg c7msg none none "ts").body
      ["payload", "error"] = none ∧
    lookupPath (process_a2a_message budgetCfg c7msg none none "ts").body
      ["payload", "analysis_results", "error"] =
      some (.str "Spending analysis failed: TypeError: unsupported operand type") :=
  ⟨rfl, rfl, rfl, rfl⟩

/-- C7 (amended): for every server sharing the A2A skeleton, a message
missing a required field, or carrying a non-empty unsupported protocol
header, gets HTTP 400; every other request gets HTTP 200, whose body is
either the outer-handler error response (status error and an error field
inside payload) or the built response, whose status field is error exactly
when the routed analysis result contains an error membership — in the
latter case the error detail is nested inside payload.analysis_results
rather than a payload-level error field. -/
theorem C7_a2a_amended (cfg : A2AServerCfg) (message : List (String × Json))
    (xp xc : Option String) (ts : String) :
    ((requiredFields.filter fun f => !assocHasKey message f) ≠ [] →
      (process_a2a_message cfg message xp xc ts).status = 400) ∧
    ((requiredFields.filter fun f => !assocHasKey message f) = [] →
      protoUnsupported xp = true →
      (process_a2a_message cfg message xp xc ts).status = 400) ∧
    ((requiredFields.filter fun f => !assocHasKey message f) = [] →
      protoUnsupported xp = false →
      (process_a2a_message cfg message xp xc ts).status = 200 ∧
      (((process_a2a_message cfg message xp xc ts).body.lookup "status" =
          some (.str "error") ∧
        (lookupPath (process_a2a_message cfg message xp xc ts).body
          ["payload", "error"]).isSome = true) ∨
       (∃ rd hasErr,
          lookupPath (process_a2a_message cfg message xp xc ts).body
            ["payload", "analysis_results"] = some rd ∧
          pyContains rd "error" = .ok hasErr ∧
          (process_a2a_message cfg message xp xc ts).body.lookup "status" =
            some (.str (if hasErr then "error" else "success"))))) := by
  refine ⟨?_, ?_, ?_⟩
  · intro hm
    have : ¬(requiredFields.filter fun f => !assocHasKey message f).isEmpty := by
      simpa [List.isEmpty_iff] using hm
    simp [process_a2a_message, this]
  · intro hm hp
    simp [process_a2a_message, hm, hp]
  · intro hm hp
    have hproc : process_a2a_message cfg message xp xc ts =
        match a2aRouteBuild cfg message xc ts with
        | .ok body => { status := 200, body := body }
        | .error e => { status := 200, body := a2aErrorBody cfg message xc e ts } := by
      simp [process_a2a_message, hm, hp]
    cases hrb : a2aRouteBuild cfg message xc ts with
    | error e =>
        rw [hproc, hrb]
        exact ⟨rfl, Or.inl ⟨rfl, rfl⟩⟩
    | ok b =>
        obtain ⟨rd, hasErr, conf, recs, _, hce, _, _, hb⟩ :=
          a2aRouteBuild_inv cfg message xc ts b hrb
        subst hb
        rw [hproc, hrb]
        exact ⟨rfl, Or.inr ⟨rd, hasErr, rfl, hce, rfl⟩⟩

/-- C7 (witness): the amended statement applied to a message missing four
required fields (HTTP 400), and to a well-formed assess_emergency_fund
message (HTTP 200). -/
theorem C7_a2a_amended_witness :
    (process_a2a_message budgetCfg [("message_id", .str "m")] none none "t").status = 400 ∧
    (process_a2a_message budgetCfg c7okmsg none none "t").status = 200 :=
  ⟨(C7_a2a_amended budgetCfg [("message_id", .str "m")] none none "t").1 (by decide),
   ((C7_a2a_amended budgetCfg c7okmsg none none "t").2.2 (by decide) rfl).1⟩

/-- C10 (counterexample): an empty X-Correlation-ID header counts as
supplied, but by Python truthiness the success response falls back to the
message's own correlation_id field: here the header is the empty string
yet the response carries zzz, the body field. -/
theorem C10_cex :
    (process_a2a_message budgetCfg c10msg none (some "") "ts").body.lookup
      "correlation_id" = some (.str "zzz") ∧
    ("zzz" : String) ≠ "" :=
  ⟨rfl, by decide⟩

/-- C10 (amended): for every server sharing the A2A skeleton and every
accepted message (required fields present, protocol header absent, empty
or supported), the response — success or error alike — echoes the request:
its message_id equals the request's message_id, its receiver_id equals the
request's sender_id, and when the X-Correlation-ID header is supplied
non-empty the response's correlation_id is exactly that header value (an
empty header falls back to the message's correlation_id field on the
success path). -/
theorem C10_echo_amended (cfg : A2AServerCfg) (message : List (String × Json))
    (xp xc : Option String) (ts : String)
    (hmiss : (requiredFields.filter fun f => !assocHasKey message f) = [])
    (hpr : protoUnsupported xp = false) :
    (process_a2a_message cfg message xp xc ts).body.lookup "message_id" =
      assocLookup message "message_id" ∧
    (process_a2a_message cfg message xp xc ts).body.lookup "receiver_id" =
      assocLookup message "sender_id" ∧
    (∀ c, xc = some c → c ≠ "" →
      (process_a2a_message cfg message xp xc ts).body.lookup "correlation_id" =
        some (.str c)) := by
  have hall : ∀ f ∈ requiredFields, assocHasKey message f = true := by
    intro f hf
    have := List.filter_eq_nil_iff.mp hmiss f hf
    simpa using this
  obtain ⟨vmid, hvmid⟩ := Option.isSome_iff_exists.mp
    (hall "message_id" (by simp [requiredFields]))
  obtain ⟨vsid, hvsid⟩ := Option.isSome_iff_exists.mp
    (hall "sender_id" (by simp [requiredFields]))
  have hproc : process_a2a_message cfg message xp xc ts =
      match a2aRouteBuild cfg message xc ts with
      | .ok body => { status := 200, body := body }
      | .error e => { status := 200, body := a2aErrorBody cfg message xc e ts } := by
    simp [process_a2a_message, hmiss, hpr]
  cases hrb : a2aRouteBuild cfg message xc ts with
  | error e =>
      rw [hproc, hrb]
      refine ⟨?_, ?_, ?_⟩
      · show some (msgGetD message "message_id" (.str "unknown")) = _
        rw [msgGetD, hvmid]; rfl
      · show some (msgGetD message "sender_id" (.str "unknown")) = _
        rw [msgGetD, hvsid]; rfl
      · intro c hc hne
        subst hc
        rfl
  | ok b =>
      obtain ⟨rd, hasErr, conf, recs, _, _, _, _, hb⟩ :=
        a2aRouteBuild_inv cfg message xc ts b hrb
      subst hb
      rw [hproc, hrb]
      refine ⟨?_, ?_, ?_⟩
      · show some (msgGet message "message_id") = _
        rw [msgGet, hvmid]; rfl
      · show some (msgGet message "sender_id") = _
        rw [msgGet, hvsid]; rfl
      · intro c hc hne
        subst hc
        show some (corrOf (some c) message) = _
        simp [corrOf, hne]

/-- C10 (witness): the amended statement applied to a well-formed message,
once with the header value abc and once with the header absent — the echo
holds in both cases, and with the non-empty header the correlation_id is
that header value. -/
theorem C10_echo_amended_witness :
    (process_a2a_message budgetCfg c10wmsg none (some "abc") "t").body.lookup
      "message_id" = assocLookup c10wmsg "message_id" ∧
    (process_a2a_message budgetCfg c10wmsg none (some "abc") "t").body.lookup
      "receiver_id" = assocLookup c10wmsg "sender_id" ∧
    (process_a2a_message budgetCfg c10wmsg none (some "abc") "t").body.lookup
      "correlation_id" = some (.str "abc") ∧
    (process_a2a_message budgetCfg c10wmsg none none "t").body.lookup
      "message_id" = assocLookup c10wmsg "message_id" ∧
    (process_a2a_message budgetCfg c10wmsg none none "t").body.lookup
      "receiver_id" = assocLookup c10wmsg "sender_id" :=
  ⟨(C10_echo_amended budgetCfg c10wmsg none (some "abc") "t" (by decide) rfl).1,
   (C10_echo_amended budgetCfg c10wmsg none (some "abc") "t" (by decide) rfl).2.1,
   (C10_echo_amended budgetCfg c10wmsg none (some "abc") "t" (by decide) rfl).2.2
     "abc" rfl (by decide),
   (C10_echo_amended budgetCfg c10wmsg none none "t" (by decide) rfl).1,
   (C10_echo_amended budgetCfg c10wmsg none none "t" (by decide) rfl).2.1⟩

end FinAdvisor
